import Mathlib

/-!
Shallow embedding of the CDN construct of this repository
(`src/ops/src/lib/constructs/staticWebsite/cdn.ts`).

The construct is a one-shot configuration-graph builder: given the
properties record `ICdnConstructProps` it emits an origin access identity,
an IAM policy document, a bucket-policy attachment, a public-access block
and a CloudFront distribution.  We model each emitted resource as a record
whose fields carry exactly the values the TypeScript constructor passes,
and the whole constructor as a function returning the five resources.

The TypeScript constructor may in principle throw; this constructor body
contains no `throw` and no validation, so the embedding returns
`Except.ok` on every input.  cdktf attribute references (bucket ARN and
id, certificate id, the identity's computed attributes) are strings at
synthesis time — possibly unresolved token encodings — and
`Token.asString` keeps them as strings.
-/

/-- cdktf `Token.asString` applied to a string-typed attribute value:
the identity on the encoded string. -/
def Token.asString (s : String) : String := s

/-- cdktf encodes attribute values that are unknown until apply time as
token strings; we model the encoding by this sentinel marker. -/
def tokenMarker : String := "TfToken"

/-- Whether a string-typed attribute value is an unresolved cdktf token:
its characters start with the token marker. -/
def isUnresolvedToken (s : String) : Bool := List.isPrefixOf tokenMarker.data s.data

/-- An ACM certificate handle, as consumed by the construct (only its
`id` attribute is read, at cdn.ts line 134). -/
structure AcmCertificate where
  id : String
  deriving DecidableEq, Inhabited

/-- An S3 bucket handle, as consumed by the construct (its `arn`, `id`
and `bucketRegionalDomainName` attributes are read). -/
structure S3Bucket where
  arn : String
  id : String
  bucketRegionalDomainName : String
  deriving DecidableEq, Inhabited

/-- The properties record of the CDN construct, cdn.ts lines 23-30.
Every field of the TypeScript interface is required (none carries the
optionality question-mark marker), so none is an `Option` here. -/
structure ICdnConstructProps where
  acmCertificate : AcmCertificate
  domainNames : List String
  enableHttps : Bool
  hasBuildCommand : Bool
  resourceNamesPrefix : String
  websiteS3Bucket : S3Bucket
  deriving DecidableEq, Inhabited

/-- The field declarations of the TypeScript interface `ICdnConstructProps`
(cdn.ts lines 23-30), each paired with whether it is declared optional
(with the question-mark marker).  None is. -/
def ICdnConstructPropsFieldOptional : List (String × Bool) :=
  [("acmCertificate", false),
   ("domainNames", false),
   ("enableHttps", false),
   ("hasBuildCommand", false),
   ("resourceNamesPrefix", false),
   ("websiteS3Bucket", false)]

/-- The origin access identity resource: its configured `comment` and its
two provider-computed attributes (unresolved references at synthesis
time). -/
structure CloudfrontOriginAccessIdentity where
  comment : String
  iamArn : String
  cloudfrontAccessIdentityPath : String
  deriving DecidableEq, Inhabited

/-- A principal block of an IAM policy statement. -/
structure IamPolicyPrincipal where
  type : String
  identifiers : List String
  deriving DecidableEq, Inhabited

/-- A statement of an IAM policy document. -/
structure IamPolicyStatement where
  effect : String
  actions : List String
  resources : List String
  principals : List IamPolicyPrincipal
  deriving DecidableEq, Inhabited

/-- The `DataAwsIamPolicyDocument` resource, cdn.ts lines 58-78. -/
structure DataAwsIamPolicyDocument where
  version : String
  statement : List IamPolicyStatement
  deriving DecidableEq, Inhabited

/-- The `S3BucketPolicy` resource, cdn.ts lines 80-83 (the attached
policy is the document built just above it). -/
structure S3BucketPolicy where
  bucket : String
  policy : DataAwsIamPolicyDocument
  deriving DecidableEq, Inhabited

/-- The `S3BucketPublicAccessBlock` resource, cdn.ts lines 85-91. -/
structure S3BucketPublicAccessBlock where
  bucket : String
  blockPublicAcls : Bool
  blockPublicPolicy : Bool
  ignorePublicAcls : Bool
  restrictPublicBuckets : Bool
  deriving DecidableEq, Inhabited

/-- The `s3OriginConfig` block of a distribution origin. -/
structure S3OriginConfig where
  originAccessIdentity : String
  deriving DecidableEq, Inhabited

/-- An origin block of the distribution, cdn.ts lines 97-103. -/
structure DistributionOrigin where
  domainName : String
  originId : String
  s3OriginConfig : List S3OriginConfig
  deriving DecidableEq, Inhabited

/-- A custom error response rule, cdn.ts lines 104-112. -/
structure CustomErrorResponse where
  errorCode : Nat
  responseCode : Nat
  responsePagePath : String
  deriving DecidableEq, Inhabited

/-- The `cookies` block of forwarded values. -/
structure ForwardedCookies where
  forward : String
  deriving DecidableEq, Inhabited

/-- The `forwardedValues` block of a cache behavior. -/
structure ForwardedValues where
  queryString : Bool
  cookies : List ForwardedCookies
  deriving DecidableEq, Inhabited

/-- The default cache behavior block, cdn.ts lines 113-124. -/
structure DefaultCacheBehavior where
  targetOriginId : String
  allowedMethods : List String
  cachedMethods : List String
  viewerProtocolPolicy : String
  forwardedValues : List ForwardedValues
  deriving DecidableEq, Inhabited

/-- A geo-restriction block. -/
structure GeoRestriction where
  restrictionType : String
  deriving DecidableEq, Inhabited

/-- The `restrictions` block, cdn.ts lines 125-129. -/
structure Restrictions where
  geoRestriction : List GeoRestriction
  deriving DecidableEq, Inhabited

/-- A viewer-certificate block, cdn.ts lines 133-138.  The TypeScript
code passes one of two object literals; a field absent from a literal is
`none` here. -/
structure ViewerCertificate where
  acmCertificateArn : Option String
  sslSupportMethod : Option String
  cloudfrontDefaultCertificate : Option Bool
  deriving DecidableEq, Inhabited

/-- The `CloudfrontDistribution` resource, cdn.ts lines 93-142.
`aliases` is `none` when the TypeScript code passes `undefined`.
`dependsOn` lists the resources an explicit dependency is declared on. -/
structure CloudfrontDistribution where
  enabled : Bool
  defaultRootObject : String
  aliases : Option (List String)
  origin : List DistributionOrigin
  customErrorResponse : List CustomErrorResponse
  defaultCacheBehavior : List DefaultCacheBehavior
  restrictions : List Restrictions
  viewerCertificate : List ViewerCertificate
  dependsOn : List S3Bucket
  deriving DecidableEq, Inhabited

/-- Everything one invocation of the CDN construct emits. -/
structure CdnConstructOutput where
  cloudfrontOriginAccessIdentity : CloudfrontOriginAccessIdentity
  buildRolePolicyDocument : DataAwsIamPolicyDocument
  bucketPolicy : S3BucketPolicy
  publicAccessBlock : S3BucketPublicAccessBlock
  cloudfrontDistribution : CloudfrontDistribution
  deriving DecidableEq, Inhabited

/-- The origin access identity created at cdn.ts lines 54-56: configured
with the fixed comment; its `iamArn` and `cloudfrontAccessIdentityPath`
are provider-computed attributes, i.e. references to the resource named
cloudfront_OAI that are unresolved at synthesis time. -/
def cloudfrontOriginAccessIdentityResource : CloudfrontOriginAccessIdentity :=
  { comment := "bifrost_summary"
  , iamArn := "TfToken.aws_cloudfront_origin_access_identity.cloudfront_OAI.iam_arn"
  , cloudfrontAccessIdentityPath :=
      "TfToken.aws_cloudfront_origin_access_identity.cloudfront_OAI.cloudfront_access_identity_path" }

/-- The IAM policy document built at cdn.ts lines 58-78: a single Allow
statement with the fixed five-action read set, the bucket ARN and its
object wildcard as resources, and the access identity's IAM ARN as the
only principal identifier. -/
def buildRolePolicyDocument (props : ICdnConstructProps)
    (oai : CloudfrontOriginAccessIdentity) : DataAwsIamPolicyDocument :=
  { version := "2012-10-17"
  , statement :=
      [{ effect := "Allow"
       , actions :=
          ["s3:GetObject",
           "s3:GetObjectVersion",
           "s3:ListBucket",
           "s3:GetBucketAcl",
           "s3:GetBucketLocation"]
       , resources :=
          [Token.asString props.websiteS3Bucket.arn,
           Token.asString props.websiteS3Bucket.arn ++ "/*"]
       , principals := [{ type := "AWS", identifiers := [oai.iamArn] }] }] }

/-- The CDN construct constructor, cdn.ts lines 49-145.  The body
contains no validation and no `throw`, so the result is `Except.ok` on
every input; the `Except` return type records that a TypeScript
constructor is the place where a validation failure would surface. -/
def cdnConstruct (props : ICdnConstructProps) : Except String CdnConstructOutput :=
  let websiteOriginID := props.resourceNamesPrefix
  let oai := cloudfrontOriginAccessIdentityResource
  let doc := buildRolePolicyDocument props oai
  Except.ok
  { cloudfrontOriginAccessIdentity := oai
  , buildRolePolicyDocument := doc
  , bucketPolicy :=
      { bucket := Token.asString props.websiteS3Bucket.id
      , policy := doc }
  , publicAccessBlock :=
      { bucket := Token.asString props.websiteS3Bucket.id
      , blockPublicAcls := true
      , blockPublicPolicy := true
      , ignorePublicAcls := true
      , restrictPublicBuckets := false }
  , cloudfrontDistribution :=
      { enabled := true
      , defaultRootObject := "index.html"
      , aliases := if props.enableHttps then some props.domainNames else none
      , origin :=
          [{ domainName := props.websiteS3Bucket.bucketRegionalDomainName
           , originId := websiteOriginID
           , s3OriginConfig :=
              [{ originAccessIdentity := oai.cloudfrontAccessIdentityPath }] }]
      , customErrorResponse :=
          [{ errorCode := 403
           , responseCode := if props.hasBuildCommand then 200 else 403
           , responsePagePath := if props.hasBuildCommand then "/index.html" else "/error.html" }]
      , defaultCacheBehavior :=
          [{ targetOriginId := websiteOriginID
           , allowedMethods := ["DELETE", "GET", "HEAD", "OPTIONS", "PATCH", "POST", "PUT"]
           , cachedMethods := ["GET", "HEAD"]
           , viewerProtocolPolicy := "redirect-to-https"
           , forwardedValues :=
              [{ queryString := false
               , cookies := [{ forward := "none" }] }] }]
      , restrictions := [{ geoRestriction := [{ restrictionType := "none" }] }]
      , viewerCertificate :=
          [if props.enableHttps then
            { acmCertificateArn := some (Token.asString props.acmCertificate.id)
            , sslSupportMethod := some "sni-only"
            , cloudfrontDefaultCertificate := none }
          else
            { acmCertificateArn := none
            , sslSupportMethod := none
            , cloudfrontDefaultCertificate := some true }]
      , dependsOn := [props.websiteS3Bucket] } }

/-- A concrete resolved bucket handle used in witnesses. -/
def sampleBucket : S3Bucket :=
  { arn := "arn:aws:s3:::bucket-abc"
  , id := "bucket-abc"
  , bucketRegionalDomainName := "bucket-abc.s3.eu-west-3.amazonaws.com" }

/-- A concrete certificate handle used in witnesses. -/
def sampleCert : AcmCertificate := { id := "cert-123" }

/-- Concrete input: HTTPS on, one domain, SPA mode on. -/
def httpsOnProps : ICdnConstructProps :=
  { acmCertificate := sampleCert
  , domainNames := ["example.com"]
  , enableHttps := true
  , hasBuildCommand := true
  , resourceNamesPrefix := "site1"
  , websiteS3Bucket := sampleBucket }

/-- Concrete input: HTTPS off (with a non-empty domain list), SPA mode off. -/
def httpsOffProps : ICdnConstructProps :=
  { acmCertificate := sampleCert
  , domainNames := ["example.com"]
  , enableHttps := false
  , hasBuildCommand := false
  , resourceNamesPrefix := "site2"
  , websiteS3Bucket := sampleBucket }

/-- Concrete input: HTTPS on with an empty domain list. -/
def emptyDomainsHttpsProps : ICdnConstructProps :=
  { acmCertificate := sampleCert
  , domainNames := []
  , enableHttps := true
  , hasBuildCommand := true
  , resourceNamesPrefix := "site3"
  , websiteS3Bucket := sampleBucket }

/-- A bucket handle whose ARN is an unresolved cdktf token. -/
def unresolvedArnBucket : S3Bucket :=
  { arn := "TfToken.aws_s3_bucket.website.arn"
  , id := "TfToken.aws_s3_bucket.website.id"
  , bucketRegionalDomainName := "TfToken.aws_s3_bucket.website.bucket_regional_domain_name" }

/-- Concrete input whose bucket ARN is an unresolved token. -/
def unresolvedArnProps : ICdnConstructProps :=
  { acmCertificate := sampleCert
  , domainNames := ["example.com"]
  , enableHttps := true
  , hasBuildCommand := true
  , resourceNamesPrefix := "site4"
  , websiteS3Bucket := unresolvedArnBucket }

/-- Concrete input equal to `httpsOnProps` except in `enableHttps` and
the domain-name and certificate fields it governs. -/
def httpsToggledProps : ICdnConstructProps :=
  { acmCertificate := { id := "other-cert" }
  , domainNames := []
  , enableHttps := false
  , hasBuildCommand := true
  , resourceNamesPrefix := "site1"
  , websiteS3Bucket := sampleBucket }

/-- The payload of a successful construction (the default output when the
construction failed); used to name concrete outputs in closed statements. -/
def okOr (e : Except String CdnConstructOutput) : CdnConstructOutput :=
  match e with
  | Except.ok o => o
  | Except.error _ => default

/-- C1: the claim says that with enableHttps = true and an empty
domain-name list construction fails before any resource is emitted; at
this concrete input construction in fact succeeds (the full resource
graph, distribution included, is emitted), so the claim is false on the
code. -/
theorem cdn_emptyDomains_construction_succeeds_ce :
    emptyDomainsHttpsProps.enableHttps = true ∧
    emptyDomainsHttpsProps.domainNames = [] ∧
    (cdnConstruct emptyDomainsHttpsProps).isOk = true :=
  ⟨rfl, rfl, rfl⟩

/-- C1 (amended): the constructor performs no input validation and never
fails: for every input with enableHttps = true and an empty domain-name
list, construction succeeds and the emitted distribution carries an
empty alias list (a missing certificate cannot arise, the interface
field being required). -/
theorem cdn_no_input_validation_empty_aliases (props : ICdnConstructProps)
    (h1 : props.enableHttps = true) (h2 : props.domainNames = []) :
    (cdnConstruct props).isOk = true ∧
    Except.map (fun o => o.cloudfrontDistribution.aliases) (cdnConstruct props)
      = Except.ok (some []) := by
  refine ⟨rfl, ?_⟩
  simp [cdnConstruct, Except.map, h1, h2]

/-- Witness for the amended C1 at a concrete input. -/
theorem cdn_no_input_validation_empty_aliases_witness :
    (cdnConstruct emptyDomainsHttpsProps).isOk = true ∧
    Except.map (fun o => o.cloudfrontDistribution.aliases) (cdnConstruct emptyDomainsHttpsProps)
      = Except.ok (some []) :=
  cdn_no_input_validation_empty_aliases emptyDomainsHttpsProps rfl rfl

/-- C2: for every input with enableHttps = false the emitted distribution
has no alias list (even when the domain-name list is non-empty) and its
viewer certificate is the platform default certificate. -/
theorem cdn_https_off_no_aliases_default_certificate (props : ICdnConstructProps)
    (h : props.enableHttps = false) :
    Except.map
      (fun o => (o.cloudfrontDistribution.aliases, o.cloudfrontDistribution.viewerCertificate))
      (cdnConstruct props)
      = Except.ok (none,
          [{ acmCertificateArn := none
           , sslSupportMethod := none
           , cloudfrontDefaultCertificate := some true }]) := by
  simp [cdnConstruct, Except.map, h]

/-- Witness for C2 at a concrete input whose domain list is non-empty. -/
theorem cdn_https_off_no_aliases_default_certificate_witness :
    httpsOffProps.domainNames = ["example.com"] ∧
    Except.map
      (fun o => (o.cloudfrontDistribution.aliases, o.cloudfrontDistribution.viewerCertificate))
      (cdnConstruct httpsOffProps)
      = Except.ok (none,
          [{ acmCertificateArn := none
           , sslSupportMethod := none
           , cloudfrontDefaultCertificate := some true }]) :=
  ⟨rfl, cdn_https_off_no_aliases_default_certificate httpsOffProps rfl⟩

/-- C3: for every input with enableHttps = true, a non-empty domain list
and a valid (non-empty) certificate identifier, the emitted alias list is
exactly the input domain-name list and the viewer certificate binds the
supplied certificate's identifier with SNI-only TLS negotiation. -/
theorem cdn_https_on_aliases_and_sni_certificate (props : ICdnConstructProps)
    (h : props.enableHttps = true) (hd : props.domainNames ≠ [])
    (hc : props.acmCertificate.id ≠ "") :
    Except.map
      (fun o => (o.cloudfrontDistribution.aliases, o.cloudfrontDistribution.viewerCertificate))
      (cdnConstruct props)
      = Except.ok (some props.domainNames,
          [{ acmCertificateArn := some (Token.asString props.acmCertificate.id)
           , sslSupportMethod := some "sni-only"
           , cloudfrontDefaultCertificate := none }]) := by
  simp [cdnConstruct, Except.map, h]

/-- Witness for C3 at a concrete input. -/
theorem cdn_https_on_aliases_and_sni_certificate_witness :
    httpsOnProps.domainNames ≠ [] ∧ httpsOnProps.acmCertificate.id ≠ "" ∧
    Except.map
      (fun o => (o.cloudfrontDistribution.aliases, o.cloudfrontDistribution.viewerCertificate))
      (cdnConstruct httpsOnProps)
      = Except.ok (some ["example.com"],
          [{ acmCertificateArn := some "cert-123"
           , sslSupportMethod := some "sni-only"
           , cloudfrontDefaultCertificate := none }]) :=
  ⟨by decide, by decide,
   cdn_https_on_aliases_and_sni_certificate httpsOnProps rfl (by decide) (by decide)⟩

/-- C4: for every input, the custom error-response list is the single
rule for origin error code 403, rewriting to /index.html with response
code 200 when hasBuildCommand is true and to /error.html with response
code 403 when it is false. -/
theorem cdn_custom_error_response_spa_switch (props : ICdnConstructProps) :
    Except.map (fun o => o.cloudfrontDistribution.customErrorResponse) (cdnConstruct props)
      = Except.ok
          [{ errorCode := 403
           , responseCode := if props.hasBuildCommand then 200 else 403
           , responsePagePath := if props.hasBuildCommand then "/index.html" else "/error.html" }] :=
  rfl

/-- C5: every successful construction emits a trust-policy document made
of exactly one Allow statement with the fixed five-action read set, the
resource pair [bucket ARN, bucket ARN ++ object wildcard] and, as only
principal, one AWS entry whose sole identifier is the IAM ARN of the
access identity emitted by the same invocation. -/
theorem cdn_trust_policy_single_statement (props : ICdnConstructProps)
    (o : CdnConstructOutput) (h : cdnConstruct props = Except.ok o) :
    o.buildRolePolicyDocument.statement =
      [{ effect := "Allow"
       , actions :=
          ["s3:GetObject",
           "s3:GetObjectVersion",
           "s3:ListBucket",
           "s3:GetBucketAcl",
           "s3:GetBucketLocation"]
       , resources :=
          [Token.asString props.websiteS3Bucket.arn,
           Token.asString props.websiteS3Bucket.arn ++ "/*"]
       , principals :=
          [{ type := "AWS", identifiers := [o.cloudfrontOriginAccessIdentity.iamArn] }] }] := by
  simp only [cdnConstruct, Except.ok.injEq] at h
  subst h
  rfl

/-- Witness for C5 at a concrete input. -/
theorem cdn_trust_policy_single_statement_witness :
    (okOr (cdnConstruct httpsOnProps)).buildRolePolicyDocument.statement =
      [{ effect := "Allow"
       , actions :=
          ["s3:GetObject",
           "s3:GetObjectVersion",
           "s3:ListBucket",
           "s3:GetBucketAcl",
           "s3:GetBucketLocation"]
       , resources := ["arn:aws:s3:::bucket-abc", "arn:aws:s3:::bucket-abc/*"]
       , principals :=
          [{ type := "AWS"
           , identifiers := [(okOr (cdnConstruct httpsOnProps)).cloudfrontOriginAccessIdentity.iamArn] }] }] :=
  cdn_trust_policy_single_statement httpsOnProps (okOr (cdnConstruct httpsOnProps)) rfl

/-- C6: for every input the public-access block emitted for the bucket
sets blockPublicAcls, blockPublicPolicy and ignorePublicAcls to true and
restrictPublicBuckets to false; being proved for all inputs, the posture
is not configurable from the input. -/
theorem cdn_public_access_block_posture (props : ICdnConstructProps) :
    Except.map
      (fun o => (o.publicAccessBlock.blockPublicAcls,
                 o.publicAccessBlock.blockPublicPolicy,
                 o.publicAccessBlock.ignorePublicAcls,
                 o.publicAccessBlock.restrictPublicBuckets))
      (cdnConstruct props)
      = Except.ok (true, true, true, false) :=
  rfl

/-- C7: for every input the default cache behavior allows all seven HTTP
methods, caches exactly GET and HEAD, forces redirect-to-https, disables
query-string forwarding and forwards no cookies. -/
theorem cdn_default_cache_behavior_fixed (props : ICdnConstructProps) :
    Except.map
      (fun o => o.cloudfrontDistribution.defaultCacheBehavior.map
        (fun b => (b.allowedMethods, b.cachedMethods, b.viewerProtocolPolicy, b.forwardedValues)))
      (cdnConstruct props)
      = Except.ok
          [(["DELETE", "GET", "HEAD", "OPTIONS", "PATCH", "POST", "PUT"],
            ["GET", "HEAD"],
            "redirect-to-https",
            [{ queryString := false, cookies := [{ forward := "none" }] }])] :=
  rfl

/-- C8: the claim says the certificate reference is optional in the
construct's configuration surface; in the interface declaration the
acmCertificate field carries no optionality marker, so the claim is
false on the code. -/
theorem cdn_certificate_field_not_optional_ce :
    ICdnConstructPropsFieldOptional.lookup "acmCertificate" ≠ some true := by
  decide

/-- C8 (amended): the certificate field is required by the configuration
interface regardless of enableHttps; however, for every input with
enableHttps = false the emitted resource graph does not depend on the
supplied certificate value. -/
theorem cdn_certificate_required_but_unused_when_https_off
    (p : ICdnConstructProps) (c : AcmCertificate) (h : p.enableHttps = false) :
    ICdnConstructPropsFieldOptional.lookup "acmCertificate" = some false ∧
    cdnConstruct { p with acmCertificate := c } = cdnConstruct p := by
  refine ⟨by decide, ?_⟩
  simp [cdnConstruct, buildRolePolicyDocument, h]

/-- Witness for the amended C8 at a concrete input. -/
theorem cdn_certificate_required_but_unused_when_https_off_witness :
    ICdnConstructPropsFieldOptional.lookup "acmCertificate" = some false ∧
    cdnConstruct { httpsOffProps with acmCertificate := { id := "other-cert" } }
      = cdnConstruct httpsOffProps :=
  cdn_certificate_required_but_unused_when_https_off httpsOffProps { id := "other-cert" } rfl

/-- C9: the claim says the trust-policy builder fails fast when the
bucket ARN is unresolved at build time; at this concrete input with an
unresolved token ARN, construction succeeds and the policy statement is
emitted with the two-entry resource list built from the token, so the
claim is false on the code. -/
theorem cdn_unresolved_arn_builder_emits_ce :
    isUnresolvedToken unresolvedArnProps.websiteS3Bucket.arn = true ∧
    (cdnConstruct unresolvedArnProps).isOk = true ∧
    Except.map
      (fun o => o.buildRolePolicyDocument.statement.map (fun s => s.resources))
      (cdnConstruct unresolvedArnProps)
      = Except.ok [["TfToken.aws_s3_bucket.website.arn",
                    "TfToken.aws_s3_bucket.website.arn/*"]] :=
  ⟨by decide, rfl, rfl⟩

/-- C9 (amended): the trust-policy builder has no failure path: for every
input, including one whose bucket ARN is an unresolved token,
construction succeeds and the emitted policy statement's resource list is
exactly the bucket ARN and its object wildcard — two entries, never
empty. -/
theorem cdn_builder_total_two_resources (props : ICdnConstructProps)
    (h : isUnresolvedToken props.websiteS3Bucket.arn = true) :
    (cdnConstruct props).isOk = true ∧
    Except.map
      (fun o => o.buildRolePolicyDocument.statement.map (fun s => s.resources))
      (cdnConstruct props)
      = Except.ok [[Token.asString props.websiteS3Bucket.arn,
                    Token.asString props.websiteS3Bucket.arn ++ "/*"]] :=
  ⟨rfl, rfl⟩

/-- Witness for the amended C9 at a concrete input with a token ARN. -/
theorem cdn_builder_total_two_resources_witness :
    isUnresolvedToken unresolvedArnProps.websiteS3Bucket.arn = true ∧
    ((cdnConstruct unresolvedArnProps).isOk = true ∧
     Except.map
       (fun o => o.buildRolePolicyDocument.statement.map (fun s => s.resources))
       (cdnConstruct unresolvedArnProps)
       = Except.ok [[Token.asString unresolvedArnProps.websiteS3Bucket.arn,
                     Token.asString unresolvedArnProps.websiteS3Bucket.arn ++ "/*"]]) :=
  ⟨by decide, cdn_builder_total_two_resources unresolvedArnProps (by decide)⟩

/-- C10: two inputs agreeing on hasBuildCommand, resourceNamesPrefix and
the bucket handle (so differing only in enableHttps and the domain-name
and certificate fields it governs) yield distributions with identical
origin binding, default cache behavior, custom error-response rule,
default root object and geo-restriction. -/
theorem cdn_https_toggle_frame (p q : ICdnConstructProps)
    (hb : p.hasBuildCommand = q.hasBuildCommand)
    (hn : p.resourceNamesPrefix = q.resourceNamesPrefix)
    (hw : p.websiteS3Bucket = q.websiteS3Bucket) :
    Except.map
      (fun o => (o.cloudfrontDistribution.origin,
                 o.cloudfrontDistribution.defaultCacheBehavior,
                 o.cloudfrontDistribution.customErrorResponse,
                 o.cloudfrontDistribution.defaultRootObject,
                 o.cloudfrontDistribution.restrictions))
      (cdnConstruct p)
    = Except.map
      (fun o => (o.cloudfrontDistribution.origin,
                 o.cloudfrontDistribution.defaultCacheBehavior,
                 o.cloudfrontDistribution.customErrorResponse,
                 o.cloudfrontDistribution.defaultRootObject,
                 o.cloudfrontDistribution.restrictions))
      (cdnConstruct q) := by
  simp [cdnConstruct, Except.map, hb, hn, hw]

/-- Witness for C10 at two concrete inputs differing in enableHttps, the
domain list and the certificate. -/
theorem cdn_https_toggle_frame_witness :
    httpsOnProps.enableHttps ≠ httpsToggledProps.enableHttps ∧
    Except.map
      (fun o => (o.cloudfrontDistribution.origin,
                 o.cloudfrontDistribution.defaultCacheBehavior,
                 o.cloudfrontDistribution.customErrorResponse,
                 o.cloudfrontDistribution.defaultRootObject,
                 o.cloudfrontDistribution.restrictions))
      (cdnConstruct httpsOnProps)
    = Except.map
      (fun o => (o.cloudfrontDistribution.origin,
                 o.cloudfrontDistribution.defaultCacheBehavior,
                 o.cloudfrontDistribution.customErrorResponse,
                 o.cloudfrontDistribution.defaultRootObject,
                 o.cloudfrontDistribution.restrictions))
      (cdnConstruct httpsToggledProps) :=
  ⟨by decide, cdn_https_toggle_frame httpsOnProps httpsToggledProps rfl rfl rfl⟩
